import Mathlib

/-!
Shallow embedding of the session/state-machine core of the copperx-tg-bot
repository (TypeScript), covering:

* `src/utils/sessionManager.ts` — per-chat session store (`getSession`,
  `setSession`, `isAuthenticated`, `clearSession`, `updateState`, `getState`,
  `setTempData`, `getTempData`, `clearTempData`);
* `src/utils/api.ts` — token registry and the axios response interceptor that
  performs the one-shot token refresh on HTTP 401;
* `src/services/authService.ts` — `requestEmailOtp`, `authenticateWithOtp`,
  `getUserProfile` response-shape normalization and token side effects;
* `src/handlers/authHandlers.ts` — `handleOtpInput` and
  `handleTransferConfirmation`.

Modelling conventions:

* JavaScript objects with optional fields become structures of `Option`s;
  `undefined` is `none`.  JS truthiness of a string is `s ≠ ""`; of an
  object, presence (`isSome`).
* The mutable module-level maps (`sessions`, `userTokens`, `refreshTokens`,
  `tokenExpiry`) become explicit state values of function type
  `String → Option _`, threaded through the operations.
* `new Date()` timestamps become an explicit `now : Nat` parameter
  (epoch milliseconds).  Date strings such as `tokens.access.expires` are
  modelled directly as optional epoch values.
* Network I/O is modelled by environment values describing the upstream
  responses; handlers are pure functions of (state, input, environment).
-/

namespace CopperxBot

/-- The `BotState` enum of `src/models/types.ts`. -/
inductive BotState
  | start
  | auth_email
  | auth_otp
  | main_menu
  | wallet_menu
  | transfer_menu
  | transfer_email
  | transfer_wallet
  | transfer_bank
  | profile
deriving DecidableEq, Repr

/-- JS truthiness of an optional string (`undefined` and `""` are falsy). -/
def strTruthy (s : Option String) : Bool :=
  match s with
  | some v => v ≠ ""
  | none => false

/-- JS `a || b` on an optional string with a string default. -/
def jsOr (a : Option String) (b : String) : String :=
  match a with
  | some v => if v = "" then b else v
  | none => b

/-- The `UserSession` interface of `src/models/types.ts`, with scratch values
of type `α`.  The `authenticated` field is the extra untyped property written
by `handleOtpInput` (`authenticated: true`); it is stored but never read by
`isAuthenticated`. -/
structure UserSession (α : Type) where
  userId : String
  email : Option String := none
  organizationId : Option String := none
  currentState : Option BotState := none
  lastAction : Nat := 0
  authenticated : Option Bool := none
  tempData : Option (String → Option α) := none

/-- The module-level `sessions` record of `src/utils/sessionManager.ts`. -/
def Store (α : Type) : Type := String → Option (UserSession α)

/-- The store with no sessions (module initial state). -/
def emptyStore (α : Type) : Store α := fun _ => none

/-- Point update of a session store. -/
def storePut (st : Store α) (c : String) (s : UserSession α) : Store α :=
  fun x => if x = c then some s else st x

/-- The default record created by `getSession` / `clearSession`:
`{ userId: chatId, currentState: BotState.START, lastAction: new Date(),
tempData: {} }`. -/
def defaultSession (α : Type) (c : String) (now : Nat) : UserSession α :=
  { userId := c
    currentState := some .start
    lastAction := now
    tempData := some fun _ => none }

/-- `getSession(chatId)`: returns the stored record, lazily creating and
storing the default one when absent.  Returns the record together with the
updated store. -/
def getSession (st : Store α) (now : Nat) (c : String) :
    UserSession α × Store α :=
  match st c with
  | some s => (s, st)
  | none =>
    let d := defaultSession α c now
    (d, storePut st c d)

/-- A `Partial<UserSession>` as passed to `setSession`.  The outer `Option`
records whether the field is present in the partial object at all; the inner
value is the (possibly `undefined`) JS value.  Only the fields that call
sites actually pass are modelled. -/
structure SessionPatch (α : Type) where
  email : Option (Option String) := none
  organizationId : Option (Option String) := none
  currentState : Option (Option BotState) := none
  authenticated : Option (Option Bool) := none
  tempData : Option (Option (String → Option α)) := none

/-- Spread semantics `{...getSession(chatId), ...sessionData,
lastAction: new Date()}`. -/
def applyPatch (s : UserSession α) (p : SessionPatch α) (now : Nat) :
    UserSession α :=
  { userId := s.userId
    email := p.email.getD s.email
    organizationId := p.organizationId.getD s.organizationId
    currentState := p.currentState.getD s.currentState
    authenticated := p.authenticated.getD s.authenticated
    tempData := p.tempData.getD s.tempData
    lastAction := now }

/-- `setSession(chatId, sessionData)` of `src/utils/sessionManager.ts`. -/
def setSession (st : Store α) (now : Nat) (c : String) (p : SessionPatch α) :
    UserSession α × Store α :=
  let base := (getSession st now c).1
  let s := applyPatch base p now
  (s, storePut st c s)

/-- `isAuthenticated(chatId)`: `!!getSession(chatId).organizationId`.
The store component records the lazy session creation done by `getSession`. -/
def isAuthenticated (st : Store α) (now : Nat) (c : String) : Bool × Store α :=
  let r := getSession st now c
  (strTruthy r.1.organizationId, r.2)

/-- `clearSession(chatId)`: overwrites the record with a fresh default one,
keeping only the chat id. -/
def clearSession (st : Store α) (now : Nat) (c : String) : Store α :=
  storePut st c (defaultSession α c now)

/-- `updateState(chatId, state)`: `setSession(chatId, { currentState })`. -/
def updateState (st : Store α) (now : Nat) (c : String) (b : BotState) :
    UserSession α × Store α :=
  setSession st now c { currentState := some (some b) }

/-- `getState(chatId)`: `getSession(chatId).currentState || BotState.START`. -/
def getState (st : Store α) (now : Nat) (c : String) : BotState × Store α :=
  let r := getSession st now c
  (r.1.currentState.getD .start, r.2)

/-- `setTempData(chatId, key, value)`: mutates the session's temp map at
`key` and re-stores it through `setSession`. -/
def setTempData (st : Store α) (now : Nat) (c k : String) (v : α) :
    UserSession α × Store α :=
  let r := getSession st now c
  let tm := r.1.tempData.getD fun _ => none
  let tm2 : String → Option α := fun x => if x = k then some v else tm x
  setSession r.2 now c { tempData := some (some tm2) }

/-- `getTempData(chatId, key)`:
`session.tempData ? session.tempData[key] : undefined`. -/
def getTempData (st : Store α) (now : Nat) (c k : String) :
    Option α × Store α :=
  let r := getSession st now c
  (match r.1.tempData with
   | some tm => tm k
   | none => none, r.2)

/-- `clearTempData(chatId)`: `setSession(chatId, { tempData: {} })`. -/
def clearTempData (st : Store α) (now : Nat) (c : String) :
    UserSession α × Store α :=
  setSession st now c { tempData := some (some fun _ => none) }

/-! ## Token registry and response interceptor (`src/utils/api.ts`) -/

/-- The module-level `userTokens`, `refreshTokens` and `tokenExpiry` records
of `src/utils/api.ts`. -/
structure TokenState where
  userTokens : String → Option String
  refreshTokens : String → Option String
  tokenExpiry : String → Option Nat

/-- The registry with no tokens (module initial state). -/
def emptyTokens : TokenState :=
  { userTokens := fun _ => none
    refreshTokens := fun _ => none
    tokenExpiry := fun _ => none }

/-- `setTokenForUser(userId, token)`. -/
def setTokenForUser (ts : TokenState) (u t : String) : TokenState :=
  { ts with userTokens := fun x => if x = u then some t else ts.userTokens x }

/-- `setRefreshTokenForUser(userId, token)`. -/
def setRefreshTokenForUser (ts : TokenState) (u t : String) : TokenState :=
  { ts with
    refreshTokens := fun x => if x = u then some t else ts.refreshTokens x }

/-- `setTokenExpiryForUser(userId, expiryTimestamp)`. -/
def setTokenExpiryForUser (ts : TokenState) (u : String) (e : Nat) :
    TokenState :=
  { ts with tokenExpiry := fun x => if x = u then some e else ts.tokenExpiry x }

/-- `getTokenForUser(userId)`: `null` on a falsy user id, else
`userTokens[userId] || null` (an empty stored token is also falsy). -/
def getTokenForUser (ts : TokenState) (u : String) : Option String :=
  if u = "" then none
  else
    match ts.userTokens u with
    | some t => if t = "" then none else some t
    | none => none

/-- `clearTokenForUser(userId)`: deletes access token, refresh token and
expiry for the user. -/
def clearTokenForUser (ts : TokenState) (u : String) : TokenState :=
  { userTokens := fun x => if x = u then none else ts.userTokens x
    refreshTokens := fun x => if x = u then none else ts.refreshTokens x
    tokenExpiry := fun x => if x = u then none else ts.tokenExpiry x }

/-- An `access` token object (`{ token, expires }`).  The `expires` date
string is modelled as an optional epoch value; absence models a missing or
empty date. -/
structure AccessTok where
  token : String := ""
  expires : Option Nat := none
deriving DecidableEq

/-- A `refresh` token object (`{ token }`). -/
structure RefreshTok where
  token : String := ""
deriving DecidableEq

/-- A `tokens` object (`{ access, refresh }`), as probed both by the
interceptor and by `authService`. -/
structure TokensObj where
  access : Option AccessTok := none
  refresh : Option RefreshTok := none
deriving DecidableEq

/-- Outcome of one HTTP request as seen by the response interceptor: success,
or rejection whose `error.response?.status` is the given optional status. -/
inductive RespOutcome
  | ok
  | errS (status : Option Nat)
deriving DecidableEq

/-- Outcome of the `axios.post` to `/auth/refresh-token`: either it throws,
or it resolves with `response.data.tokens` being the given optional object. -/
inductive RefreshOutcome
  | throws
  | ok (tokens : Option TokensObj)
deriving DecidableEq

/-- Upstream behaviour for one gateway request: the original request's
outcome, the refresh call's outcome, and the retried request's outcome. -/
structure GatewayEnv where
  first : RespOutcome
  refresh : RefreshOutcome := .throws
  second : RespOutcome := .ok
deriving DecidableEq

/-- What the gateway call finally settles with: the original response, the
retried response, or a rejection carrying the original or the retry error. -/
inductive CallResult
  | okFirst
  | okRetry
  | errOriginal (status : Option Nat)
  | errRetry (status : Option Nat)
deriving DecidableEq

/-- How many refresh calls and retries of the original request were made. -/
structure Trace where
  refreshCalls : Nat
  retries : Nat
deriving DecidableEq

/-- The token-updating block of the response interceptor (lines 49–59 of
`src/utils/api.ts`): stores the new access token, and, only when a refresh
token is present, also the refresh token and the expiry computed from
`access.expires` (a missing date, i.e. `new Date(undefined).getTime()`,
is modelled as `0`; the stored expiry value is never read anywhere). -/
def interceptorStoreTokens (ts : TokenState) (u : String) (t : TokensObj)
    (a : AccessTok) : TokenState :=
  let ts1 := setTokenForUser ts u a.token
  match t.refresh with
  | some rt =>
    setTokenExpiryForUser (setRefreshTokenForUser ts1 u rt.token) u
      (a.expires.getD 0)
  | none => ts1

/-- One gateway request through the response interceptor of
`src/utils/api.ts`.  On a 401 with a truthy `params.userId` and no `_retry`
flag, and a truthy stored refresh token, the interceptor calls the refresh
endpoint once: if it throws, the tokens are cleared and the original error
is rejected; if it resolves with `tokens.access`, the new tokens are stored
and the original request is retried once.  The retried request re-enters the
interceptor with `_retry = true`, so any error it produces is rejected
unchanged (no second refresh, no second retry) — that re-entry is inlined in
the `errS s2` branch.  A refresh that resolves without `tokens.access` falls
through to rejecting the original error without clearing. -/
def runRequest (ts : TokenState) (u : String) (env : GatewayEnv) :
    TokenState × CallResult × Trace :=
  match env.first with
  | .ok => (ts, .okFirst, ⟨0, 0⟩)
  | .errS s =>
    if s = some 401 ∧ u ≠ "" then
      match ts.refreshTokens u with
      | some rt =>
        if rt ≠ "" then
          match env.refresh with
          | .throws => (clearTokenForUser ts u, .errOriginal s, ⟨1, 0⟩)
          | .ok tokens =>
            match tokens with
            | some t =>
              match t.access with
              | some a =>
                let ts2 := interceptorStoreTokens ts u t a
                match env.second with
                | .ok => (ts2, .okRetry, ⟨1, 1⟩)
                | .errS s2 => (ts2, .errRetry s2, ⟨1, 1⟩)
              | none => (ts, .errOriginal s, ⟨1, 0⟩)
            | none => (ts, .errOriginal s, ⟨1, 0⟩)
        else (ts, .errOriginal s, ⟨0, 0⟩)
      | none => (ts, .errOriginal s, ⟨0, 0⟩)
    else (ts, .errOriginal s, ⟨0, 0⟩)

/-! ## Auth service (`src/services/authService.ts`) -/

/-- A `user` object as it may appear in an upstream auth response.  The
TypeScript `User` interface declares `organizationId : string`, but the
runtime value is whatever the API sent, so every field is optional here. -/
structure UserObj where
  id : Option String := none
  email : Option String := none
  name : Option String := none
  organizationId : Option String := none
deriving DecidableEq

/-- The `data` member of an upstream auth response
(`{ sid?, tokens?, user? }`). -/
structure RespData where
  sid : Option String := none
  tokens : Option TokensObj := none
  user : Option UserObj := none
deriving DecidableEq

/-- An upstream response body with every field the auth service probes
(`status`, `success`, `code`, `statusCode`, `message`, `error`, `data`,
top-level `tokens`, top-level `user`). -/
structure UpResp where
  status : Option Bool := none
  success : Option Bool := none
  code : Option Nat := none
  statusCode : Option Nat := none
  message : Option String := none
  error : Option String := none
  data : Option RespData := none
  tokens : Option TokensObj := none
  user : Option UserObj := none
deriving DecidableEq

/-- The parts of a thrown axios error that the auth service inspects:
`error.response?.status` and `error.response?.data?.message`. -/
structure AxiosErr where
  status : Option Nat := none
  dataMessage : Option String := none
deriving DecidableEq

/-- The `data` member of the result of `requestEmailOtp`: either the
upstream `response.data`, or (ambiguous branch) the whole response. -/
inductive ReqOtpData
  | fromData (d : RespData)
  | whole (r : UpResp)
deriving DecidableEq

/-- `ApiResponse` as produced by `requestEmailOtp`.  `message` is optional
because the raw upstream response (returned verbatim on explicit failure)
may lack one. -/
structure OtpReqResult where
  status : Bool
  message : Option String
  data : Option ReqOtpData
deriving DecidableEq

/-- The success-indicator disjunction of `requestEmailOtp` (lines 11–18 of
`src/services/authService.ts`). -/
def otpReqSuccessCheck (r : UpResp) : Bool :=
  decide (r.status = some true) || decide (r.success = some true) ||
  decide (r.code = some 200) || decide (r.statusCode = some 200) ||
  (strTruthy r.message && !strTruthy r.error)

/-- Response-shape normalization of `requestEmailOtp` on a non-thrown
response: success indicators win, then an explicit `status: false` is
returned verbatim, and an ambiguous response is treated as success with the
generic message `Verification code sent`. -/
def requestEmailOtpNorm (r : UpResp) : OtpReqResult :=
  if otpReqSuccessCheck r then
    { status := true
      message := some (jsOr r.message "Verification code sent successfully")
      data := r.data.map .fromData }
  else if r.status = some false then
    { status := false, message := r.message, data := r.data.map .fromData }
  else
    { status := true
      message := some "Verification code sent"
      data := some (match r.data with
        | some d => .fromData d
        | none => .whole r) }

/-- `requestEmailOtp(email)`: the POST either resolves with a body (then
normalized) or throws (then converted to a failure result). -/
def requestEmailOtp (call : Except AxiosErr UpResp) : OtpReqResult :=
  match call with
  | .ok r => requestEmailOtpNorm r
  | .error e =>
    { status := false
      message :=
        some (jsOr e.dataMessage "Failed to request OTP. Please try again.")
      data := none }

/-- The truthy value of an optional chain `tokens?.access?.token` (an empty
token string is falsy). -/
def chainAccessToken (t : Option TokensObj) : Option String :=
  match t with
  | some tobj =>
    match tobj.access with
    | some a => if a.token = "" then none else some a.token
    | none => none
  | none => none

/-- `ApiResponse<AuthResponse>` as produced by `authenticateWithOtp`. -/
structure AuthResult where
  status : Bool
  message : Option String
  data : Option RespData
deriving DecidableEq

/-- Token side effects shared by the two success branches of
`authenticateWithOtp`: store the access token; store the refresh token when
`refresh?.token` is truthy; store the expiry when `access.expires` is
truthy. -/
def authStoreTokens (ts : TokenState) (u : String) (t : TokensObj)
    (a : AccessTok) : TokenState :=
  let ts1 := setTokenForUser ts u a.token
  let ts2 :=
    match t.refresh with
    | some rt =>
      if rt.token = "" then ts1 else setRefreshTokenForUser ts1 u rt.token
    | none => ts1
  match a.expires with
  | some e => setTokenExpiryForUser ts2 u e
  | none => ts2

/-- Error-message selection of the catch branch of `authenticateWithOtp`. -/
def authErrMessage (e : AxiosErr) : String :=
  if e.status = some 401 then "Invalid OTP code. Please check and try again."
  else if e.status = some 429 then
    "Too many attempts. Please wait before trying again."
  else
    match e.dataMessage with
    | some m =>
      if m = "" then "Authentication failed. Please check your OTP and try again."
      else m
    | none => "Authentication failed. Please check your OTP and try again."

/-- Last two branches of `authenticateWithOtp`: explicit `status: false` is
returned verbatim; anything else is an unexpected format and fails. -/
def authTail (ts : TokenState) (r : UpResp) : TokenState × AuthResult :=
  if r.status = some false then
    (ts, { status := false, message := r.message, data := r.data })
  else
    (ts,
      { status := false
        message := some "Authentication failed: Unexpected response format"
        data := none })

/-- Second branch of `authenticateWithOtp`: tokens hoisted to the top level
of the response; on a truthy `tokens?.access?.token` the tokens are stored
and the result is restructured with `user: response.user || { email,
organizationId: '', id: '' }`. -/
def authFallback (ts : TokenState) (email userId : String) (r : UpResp) :
    TokenState × AuthResult :=
  match r.tokens with
  | some t =>
    match t.access with
    | some a =>
      if a.token = "" then authTail ts r
      else
        (authStoreTokens ts userId t a,
          { status := true
            message := some "Authentication successful"
            data := some
              { tokens := some t
                user := some (r.user.getD
                  { id := some "", email := some email,
                    organizationId := some "" }) } })
    | none => authTail ts r
  | none => authTail ts r

/-- `authenticateWithOtp(email, otp, userId)`: first branch fires on an
explicit success flag together with a truthy nested
`data?.tokens?.access?.token`; then the top-level-tokens branch; then the
explicit-failure branch; then the unexpected-format failure.  The `otp`
argument only feeds the request payload. -/
def authenticateWithOtp (ts : TokenState) (email otp userId : String)
    (call : Except AxiosErr UpResp) : TokenState × AuthResult :=
  match call with
  | .error e =>
    (ts, { status := false, message := some (authErrMessage e), data := none })
  | .ok r =>
    if r.status = some true ∨ r.success = some true then
      match r.data with
      | some d =>
        match d.tokens with
        | some t =>
          match t.access with
          | some a =>
            if a.token = "" then authFallback ts email userId r
            else
              (authStoreTokens ts userId t a,
                { status := true
                  message := some (jsOr r.message "Authentication successful")
                  data := r.data })
          | none => authFallback ts email userId r
        | none => authFallback ts email userId r
      | none => authFallback ts email userId r
    else authFallback ts email userId r

/-! ## Handlers (`src/handlers/authHandlers.ts`) -/

/-- A scratch value stored in a session's temp map: the handlers store
strings (emails, addresses, bank fields, sid) and numbers (amounts). -/
inductive TempVal
  | str (s : String)
  | num (q : Rat)
deriving DecidableEq

/-- JS truthiness of a scratch value (empty string and zero are falsy). -/
def TempVal.truthy : TempVal → Bool
  | .str s => s ≠ ""
  | .num q => q ≠ 0

/-- JS string coercion of a scratch value. -/
def TempVal.asString : TempVal → String
  | .str s => s
  | .num q => toString q

/-- Truthiness of an optional scratch value (the `!email` style checks). -/
def tempTruthy (v : Option TempVal) : Bool :=
  match v with
  | some w => w.truthy
  | none => false

/-- The session store as used by the handlers. -/
abbrev SessStore := Store TempVal

/-- The code points removed by JS `String.prototype.trim()` (ECMA-262
`TrimString`, WhiteSpace ∪ LineTerminator): TAB, LF, VT, FF, CR, space,
NBSP, the Unicode space separators (category Zs: U+1680, U+2000–U+200A,
U+202F, U+205F, U+3000), LS, PS and ZWNBSP. -/
def jsWhitespace (ch : Char) : Bool :=
  decide (ch.val = 0x09) || decide (ch.val = 0x0A) ||
  decide (ch.val = 0x0B) || decide (ch.val = 0x0C) ||
  decide (ch.val = 0x0D) || decide (ch.val = 0x20) ||
  decide (ch.val = 0xA0) || decide (ch.val = 0x1680) ||
  (decide (0x2000 ≤ ch.val) && decide (ch.val ≤ 0x200A)) ||
  decide (ch.val = 0x2028) || decide (ch.val = 0x2029) ||
  decide (ch.val = 0x202F) || decide (ch.val = 0x205F) ||
  decide (ch.val = 0x3000) || decide (ch.val = 0xFEFF)

/-- Model of JS `String.prototype.trim()`: drops leading and trailing
`jsWhitespace` code points (written structurally over the character list so
that it evaluates on concrete inputs). -/
def jsTrim (s : String) : String :=
  ⟨((s.data.dropWhile jsWhitespace).reverse.dropWhile jsWhitespace).reverse⟩

/-- The OTP validation of `handleOtpInput`: the regex `\d` repeated 4 to 8
times, anchored — i.e. 4 to 8 ASCII digits and nothing else. -/
def isValidOtp (s : String) : Bool :=
  decide (4 ≤ s.length) && decide (s.length ≤ 8) && s.data.all Char.isDigit

/-- Upstream behaviour for one run of `handleOtpInput`: the outcome of the
`/auth/email-otp/authenticate` POST (which goes out without a `userId`, so
it never enters the refresh path) and the gateway behaviour for the
awaited follow-up calls — the `/auth/me` profile fetch and the `/kycs`
status fetch. -/
structure OtpEnv where
  auth : Except AxiosErr UpResp
  profile : GatewayEnv := { first := .ok }
  kyc : GatewayEnv := { first := .ok }

/-- `getUserProfile(userId)`: a GET through the gateway; when the propagated
error carries status 401 the token record is cleared.  Only the token side
effect and the success flag are modelled; no caller modelled here uses the
profile payload for state. -/
def getUserProfile (ts : TokenState) (u : String) (env : GatewayEnv) :
    TokenState × Bool :=
  let r := runRequest ts u env
  match r.2.1 with
  | .okFirst => (r.1, true)
  | .okRetry => (r.1, true)
  | .errOriginal s =>
    (if s = some 401 then clearTokenForUser r.1 u else r.1, false)
  | .errRetry s =>
    (if s = some 401 then clearTokenForUser r.1 u else r.1, false)

/-- `getKycStatus(userId)`: a GET through the gateway with `userId`, so the
401 interceptor can refresh (replacing tokens) or clear them on a throwing
refresh; the service-level catch itself never clears.  Only the token side
effect and the success flag are modelled. -/
def getKycStatus (ts : TokenState) (u : String) (env : GatewayEnv) :
    TokenState × Bool :=
  let r := runRequest ts u env
  match r.2.1 with
  | .okFirst => (r.1, true)
  | .okRetry => (r.1, true)
  | .errOriginal _ => (r.1, false)
  | .errRetry _ => (r.1, false)

/-- Which reply path one run of `handleOtpInput` took.  `crash` marks the
JS TypeError raised when the success branch reads `userData.email` while
the response data carries no `user` object. -/
inductive OtpStep
  | sessionExpired
  | invalidFormat
  | loginFailed
  | loginSuccess
  | crash
deriving DecidableEq

/-- Result of one run of `handleOtpInput`: final session store, final token
registry, reply path taken, and whether the authenticate POST was issued. -/
structure OtpHandlerResult where
  sess : SessStore
  toks : TokenState
  step : OtpStep
  authCalled : Bool

/-- `handleOtpInput`: trims the text, reads the scratch email (prompting to
restart login when it is falsy), rejects a trimmed input that is not 4–8
digits, otherwise calls `authenticateWithOtp`; on a success result carrying
data it merges the user's email/organization id plus `authenticated: true`
and state MAIN_MENU into the session and then awaits the profile fetch and
the KYC status fetch in that order, each of which can change the token
registry through the 401 interceptor.  The pusher initialization between
them is fired without `await` (a floating `.then`), so it is not part of
the handler's completion and is not modelled. -/
def handleOtpInput (st : SessStore) (ts : TokenState) (now : Nat)
    (chatId text : String) (env : OtpEnv) : OtpHandlerResult :=
  let otp := jsTrim text
  let ge := getTempData st now chatId "email"
  match ge.1 with
  | none =>
    { sess := ge.2, toks := ts, step := .sessionExpired, authCalled := false }
  | some ev =>
    if ev.truthy = false then
      { sess := ge.2, toks := ts, step := .sessionExpired, authCalled := false }
    else if isValidOtp otp = false then
      { sess := ge.2, toks := ts, step := .invalidFormat, authCalled := false }
    else
      let ar := authenticateWithOtp ts ev.asString otp chatId env.auth
      if ar.2.status then
        match ar.2.data with
        | some d =>
          match d.user with
          | none =>
            { sess := ge.2, toks := ar.1, step := .crash, authCalled := true }
          | some u =>
            let st2 := (setSession ge.2 now chatId
              { email := some u.email
                organizationId := some u.organizationId
                authenticated := some (some true)
                currentState := some (some .main_menu) }).2
            let pr := getUserProfile ar.1 chatId env.profile
            let kr := getKycStatus pr.1 chatId env.kyc
            { sess := st2, toks := kr.1, step := .loginSuccess,
              authCalled := true }
        | none =>
          { sess := ge.2, toks := ar.1, step := .loginFailed, authCalled := true }
      else
        { sess := ge.2, toks := ar.1, step := .loginFailed, authCalled := true }

/-- The three transfer submission endpoints. -/
inductive TransferKind
  | email
  | wallet
  | bank
deriving DecidableEq

/-- `handleTransferConfirmation` (state effects): dispatch on the callback
data.  Each confirm branch reads its required scratch fields; when one is
falsy it resets the state to MAIN_MENU and re-renders the transfer menu
(`handleSendCommand` sets state TRANSFER_MENU) without any transfer call;
otherwise it issues exactly one transfer request and — on success and
failure replies alike — resets the state to MAIN_MENU and clears the
scratch map.  `cancel_transfer` resets the state to MAIN_MENU and clears
the scratch map with no transfer call (`handleMenu` afterwards only reads).
Unknown callback data does nothing.  The returned list records the transfer
requests issued. -/
def handleTransferConfirmation (st : SessStore) (now : Nat) (c cb : String) :
    SessStore × List TransferKind :=
  if cb = "confirm_email_transfer" then
    let g1 := getTempData st now c "transferEmail"
    let g2 := getTempData g1.2 now c "transferAmount"
    let g3 := getTempData g2.2 now c "transferMessage"
    let g4 := getTempData g3.2 now c "transferNetwork"
    if tempTruthy g1.1 && tempTruthy g2.1 && tempTruthy g4.1 then
      ((clearTempData (updateState g4.2 now c .main_menu).2 now c).2, [.email])
    else
      ((updateState (updateState g4.2 now c .main_menu).2 now c
        .transfer_menu).2, [])
  else if cb = "confirm_wallet_transfer" then
    let g1 := getTempData st now c "transferWalletAddress"
    let g2 := getTempData g1.2 now c "transferAmount"
    let g3 := getTempData g2.2 now c "transferNetwork"
    if tempTruthy g1.1 && tempTruthy g2.1 && tempTruthy g3.1 then
      ((clearTempData (updateState g3.2 now c .main_menu).2 now c).2, [.wallet])
    else
      ((updateState (updateState g3.2 now c .main_menu).2 now c
        .transfer_menu).2, [])
  else if cb = "confirm_bank_transfer" then
    let g1 := getTempData st now c "bankName"
    let g2 := getTempData g1.2 now c "bankAccountNumber"
    let g3 := getTempData g2.2 now c "bankRoutingNumber"
    let g4 := getTempData g3.2 now c "bankInstitutionName"
    let g5 := getTempData g4.2 now c "transferAmount"
    if tempTruthy g1.1 && tempTruthy g2.1 && tempTruthy g3.1 &&
        tempTruthy g4.1 && tempTruthy g5.1 then
      ((clearTempData (updateState g5.2 now c .main_menu).2 now c).2, [.bank])
    else
      ((updateState (updateState g5.2 now c .main_menu).2 now c
        .transfer_menu).2, [])
  else if cb = "cancel_transfer" then
    ((clearTempData (updateState st now c .main_menu).2 now c).2, [])
  else (st, [])

/-- A store holding one session for chat `"1"` in state AUTH_OTP whose
scratch holds the email `user@example.com`, as the email step of the login
flow leaves it. -/
def awaitingOtpStore : SessStore :=
  (setTempData (updateState (emptyStore TempVal) 0 "1" .auth_otp).2 0 "1"
    "email" (.str "user@example.com")).2

/-- An OTP-verify response with explicit success status and a nested access
token `"abc"`, whose user object carries an EMPTY organization id. -/
def emptyOrgAuthResp : UpResp :=
  { status := some true
    data := some
      { tokens := some { access := some { token := "abc" } }
        user := some
          { email := some "user@example.com", organizationId := some "" } } }

/-! ## Theorems -/

/-- Claim C5: for a chat id never seen before, `getSession` returns and
stores the default record (state START, empty scratch, no auth fields), and
a repeated call before any write returns the same default record without
further change — `getSession` is total, hence never fails. -/
theorem getSession_fresh_default {α : Type} (st : Store α) (now now2 : Nat)
    (c : String) (h : st c = none) :
    getSession st now c =
      (defaultSession α c now, storePut st c (defaultSession α c now)) ∧
    storePut st c (defaultSession α c now) c = some (defaultSession α c now) ∧
    getSession (storePut st c (defaultSession α c now)) now2 c =
      (defaultSession α c now, storePut st c (defaultSession α c now)) := by
  refine ⟨?_, ?_, ?_⟩ <;> simp [getSession, storePut, h]

/-- Witness for C5 at the empty store and chat id `"42"`. -/
theorem getSession_fresh_default_witness :
    emptyStore String "42" = none ∧
    (getSession (emptyStore String) 5 "42" =
      (defaultSession String "42" 5,
        storePut (emptyStore String) "42" (defaultSession String "42" 5)) ∧
     storePut (emptyStore String) "42" (defaultSession String "42" 5) "42" =
       some (defaultSession String "42" 5) ∧
     getSession (storePut (emptyStore String) "42" (defaultSession String "42" 5))
         7 "42" =
       (defaultSession String "42" 5,
        storePut (emptyStore String) "42" (defaultSession String "42" 5))) :=
  ⟨rfl, getSession_fresh_default (emptyStore String) 5 7 "42" rfl⟩

/-- Claim C6: `isAuthenticated(chatId)` is true iff the stored session's
organization-id field is present and non-empty, and overwriting the separate
`authenticated` flag alone never changes its result. -/
theorem isAuthenticated_iff_orgId {α : Type} (st : Store α) (now : Nat)
    (c : String) (s : UserSession α) (b : Option Bool) (h : st c = some s) :
    ((isAuthenticated st now c).1 = true ↔
      ∃ org, s.organizationId = some org ∧ org ≠ "") ∧
    (isAuthenticated (storePut st c { s with authenticated := b }) now c).1 =
      (isAuthenticated st now c).1 := by
  constructor
  · simp only [isAuthenticated, getSession, h, strTruthy]
    cases s.organizationId <;> simp
  · simp [isAuthenticated, getSession, storePut, h, strTruthy]

/-- Witness for C6: a session for chat `"1"` with organization id `"org"`
and `authenticated` set to `false` is still authenticated. -/
theorem isAuthenticated_iff_orgId_witness :
    (storePut (emptyStore String) "1"
        { defaultSession String "1" 0 with organizationId := some "org" } "1" =
      some { defaultSession String "1" 0 with organizationId := some "org" }) ∧
    (((isAuthenticated
          (storePut (emptyStore String) "1"
            { defaultSession String "1" 0 with organizationId := some "org" })
          3 "1").1 = true ↔
        ∃ org,
          ({ defaultSession String "1" 0 with
              organizationId := some "org" } : UserSession String).organizationId
            = some org ∧ org ≠ "") ∧
      (isAuthenticated
          (storePut
            (storePut (emptyStore String) "1"
              { defaultSession String "1" 0 with organizationId := some "org" })
            "1"
            { { defaultSession String "1" 0 with organizationId := some "org" }
                with authenticated := some false }) 3 "1").1 =
        (isAuthenticated
          (storePut (emptyStore String) "1"
            { defaultSession String "1" 0 with organizationId := some "org" })
          3 "1").1) :=
  ⟨rfl,
    isAuthenticated_iff_orgId
      (storePut (emptyStore String) "1"
        { defaultSession String "1" 0 with organizationId := some "org" })
      3 "1" _ (some false) rfl⟩

/-- Claim C7: from every prior session state, `clearSession` resets the
record to the default one (state START, empty scratch, no email, no
organization id), preserving only the chat id, and `isAuthenticated`
immediately afterwards is false. -/
theorem clearSession_resets_and_unauth {α : Type} (st : Store α)
    (now now2 : Nat) (c : String) :
    (clearSession st now c) c = some (defaultSession α c now) ∧
    (isAuthenticated (clearSession st now c) now2 c).1 = false := by
  constructor
  · simp [clearSession, storePut]
  · simp [clearSession, isAuthenticated, getSession, storePut, defaultSession,
      strTruthy]

/-- Claim C10: `getTempData` right after `setTempData` returns the value
just set; other scratch keys, the session's email, organization id and
conversation state are unchanged; and `getTempData` on a key never set
returns `undefined` (`none`) rather than failing. -/
theorem setTempData_roundtrip_frame {α : Type} (st : Store α)
    (now now2 : Nat) (c k k2 : String) (v : α) (h : k2 ≠ k) :
    (getTempData (setTempData st now c k v).2 now2 c k).1 = some v ∧
    (getTempData (setTempData st now c k v).2 now2 c k2).1 =
      (getTempData st now2 c k2).1 ∧
    (getSession (setTempData st now c k v).2 now2 c).1.email =
      (getSession st now2 c).1.email ∧
    (getSession (setTempData st now c k v).2 now2 c).1.organizationId =
      (getSession st now2 c).1.organizationId ∧
    (getState (setTempData st now c k v).2 now2 c).1 =
      (getState st now2 c).1 ∧
    (∀ tm, (getSession st now2 c).1.tempData = some tm → tm k = none →
      (getTempData st now2 c k).1 = none) := by
  cases hc : st c with
  | none =>
    simp [setTempData, setSession, applyPatch, getSession, storePut,
      getTempData, getState, defaultSession, hc, h]
  | some s =>
    cases ht : s.tempData <;>
      simp [setTempData, setSession, applyPatch, getSession, storePut,
        getTempData, getState, defaultSession, hc, ht, h]

/-- Witness for C10 at the empty store, keys `"a"` and `"b"`. -/
theorem setTempData_roundtrip_frame_witness :
    ("b" ≠ "a") ∧
    ((getTempData (setTempData (emptyStore String) 1 "1" "a" "x").2 2 "1" "a").1
        = some "x" ∧
      (getTempData (setTempData (emptyStore String) 1 "1" "a" "x").2 2 "1" "b").1
        = (getTempData (emptyStore String) 2 "1" "b").1 ∧
      (getSession (setTempData (emptyStore String) 1 "1" "a" "x").2 2 "1").1.email
        = (getSession (emptyStore String) 2 "1").1.email ∧
      (getSession (setTempData (emptyStore String) 1 "1" "a" "x").2 2
          "1").1.organizationId
        = (getSession (emptyStore String) 2 "1").1.organizationId ∧
      (getState (setTempData (emptyStore String) 1 "1" "a" "x").2 2 "1").1
        = (getState (emptyStore String) 2 "1").1 ∧
      (∀ tm, (getSession (emptyStore String) 2 "1").1.tempData = some tm →
        tm "a" = none → (getTempData (emptyStore String) 2 "1" "a").1 = none)) :=
  ⟨by decide,
    setTempData_roundtrip_frame (emptyStore String) 1 2 "1" "a" "b" "x"
      (by decide)⟩

/-- Claim C2: every gateway request performs at most one token refresh and
at most one retry; and when a 401 triggers a refresh that itself throws, the
token record is cleared and the original 401 failure is propagated, with
trace exactly one refresh and zero retries. -/
theorem gateway_single_refresh_discipline (ts : TokenState) (u : String)
    (env : GatewayEnv) :
    (runRequest ts u env).2.2.refreshCalls ≤ 1 ∧
    (runRequest ts u env).2.2.retries ≤ 1 ∧
    (env.first = .errS (some 401) → u ≠ "" →
      ∀ rt, ts.refreshTokens u = some rt → rt ≠ "" →
        env.refresh = .throws →
        runRequest ts u env =
          (clearTokenForUser ts u, .errOriginal (some 401), ⟨1, 0⟩)) := by
  obtain ⟨f, r, sec⟩ := env
  cases f with
  | ok => simp [runRequest]
  | errS s =>
    by_cases hu : s = some 401 ∧ u ≠ ""
    · cases hrt : ts.refreshTokens u with
      | none => simp [runRequest, hu, hrt]
      | some rt =>
        by_cases hr : rt = ""
        · simp [runRequest, hu, hrt, hr]
        · cases r with
          | throws => simp [runRequest, hu, hrt, hr, hu.1]
          | ok tokens =>
            cases tokens with
            | none => simp [runRequest, hu, hrt, hr]
            | some t =>
              cases ha : t.access with
              | none => simp [runRequest, hu, hrt, hr, ha]
              | some a => cases sec <;> simp [runRequest, hu, hrt, hr, ha]
    · refine ⟨by simp [runRequest, hu], by simp [runRequest, hu], ?_⟩
      intro h1 h2
      simp only [RespOutcome.errS.injEq] at h1
      exact absurd ⟨h1, h2⟩ hu

/-- Witness for C2: a 401 with stored refresh token `"r"` whose refresh call
throws, for user `"7"`. -/
theorem gateway_single_refresh_discipline_witness :
    ((setRefreshTokenForUser (setTokenForUser emptyTokens "7" "tok") "7"
        "r").refreshTokens "7" = some "r") ∧
    ((runRequest
        (setRefreshTokenForUser (setTokenForUser emptyTokens "7" "tok") "7" "r")
        "7"
        { first := .errS (some 401) }).2.2.refreshCalls ≤ 1 ∧
      (runRequest
        (setRefreshTokenForUser (setTokenForUser emptyTokens "7" "tok") "7" "r")
        "7"
        { first := .errS (some 401) }).2.2.retries ≤ 1 ∧
      ((({ first := .errS (some 401) } : GatewayEnv).first = .errS (some 401)) →
        ("7" : String) ≠ "" →
        ∀ rt,
          (setRefreshTokenForUser (setTokenForUser emptyTokens "7" "tok") "7"
              "r").refreshTokens "7" = some rt → rt ≠ "" →
          ({ first := .errS (some 401) } : GatewayEnv).refresh = .throws →
          runRequest
            (setRefreshTokenForUser (setTokenForUser emptyTokens "7" "tok") "7"
              "r")
            "7" { first := .errS (some 401) } =
            (clearTokenForUser
              (setRefreshTokenForUser (setTokenForUser emptyTokens "7" "tok")
                "7" "r")
              "7", .errOriginal (some 401), ⟨1, 0⟩))) :=
  ⟨rfl,
    gateway_single_refresh_discipline
      (setRefreshTokenForUser (setTokenForUser emptyTokens "7" "tok") "7" "r")
      "7" { first := .errS (some 401) }⟩

/-- Counterexample to claim C3: a 401 for user `"7"` who has an access token
`"tok"` but no stored refresh token.  The call fails with the original 401,
but the token record is NOT cleared: the access token is still stored — the
claim says it must have been cleared. -/
theorem unauth_401_no_refresh_counterexample :
    (setTokenForUser emptyTokens "7" "tok").refreshTokens "7" = none ∧
    (runRequest (setTokenForUser emptyTokens "7" "tok") "7"
        { first := .errS (some 401) }).2.1 = .errOriginal (some 401) ∧
    (runRequest (setTokenForUser emptyTokens "7" "tok") "7"
        { first := .errS (some 401) }).1.userTokens "7" = some "tok" ∧
    getTokenForUser
        (runRequest (setTokenForUser emptyTokens "7" "tok") "7"
          { first := .errS (some 401) }).1 "7" = some "tok" :=
  ⟨rfl, rfl, rfl, rfl⟩

/-- Claim C3 as amended: on a 401 for a chat id with no stored refresh token,
the gateway reports the call as failed with the original 401 and leaves the
token record unchanged (it does not clear it). -/
theorem unauth_401_without_refresh_token (ts : TokenState) (u : String)
    (env : GatewayEnv) (h1 : env.first = .errS (some 401))
    (h2 : ts.refreshTokens u = none) :
    runRequest ts u env = (ts, .errOriginal (some 401), ⟨0, 0⟩) := by
  by_cases hu : u = "" <;> simp [runRequest, h1, h2, hu]

/-- Witness for amended C3 at a concrete registry holding only an access
token for `"7"`. -/
theorem unauth_401_without_refresh_token_witness :
    ({ first := .errS (some 401) } : GatewayEnv).first = .errS (some 401) ∧
    (setTokenForUser emptyTokens "7" "tok").refreshTokens "7" = none ∧
    runRequest (setTokenForUser emptyTokens "7" "tok") "7"
        { first := .errS (some 401) } =
      (setTokenForUser emptyTokens "7" "tok", .errOriginal (some 401), ⟨0, 0⟩) :=
  ⟨rfl, rfl,
    unauth_401_without_refresh_token (setTokenForUser emptyTokens "7" "tok")
      "7" { first := .errS (some 401) } rfl rfl⟩

/-- Counterexample to claim C4: the empty upstream body `{}` has no
recognizable failure marker and no recognizable success marker, yet the
OTP-verify call `authenticateWithOtp` returns a failure result
(`Authentication failed: Unexpected response format`), not a success with a
generic confirmation. -/
theorem ambiguous_otp_verify_counterexample :
    (authenticateWithOtp emptyTokens "user@example.com" "1234" "7"
        (.ok {})).2.status = false ∧
    (authenticateWithOtp emptyTokens "user@example.com" "1234" "7"
        (.ok {})).2.message =
      some "Authentication failed: Unexpected response format" :=
  ⟨rfl, rfl⟩

/-- Claim C4 as amended: on an upstream response with no recognizable
failure marker and no recognizable success marker (no `status`, `success`,
`code` or `statusCode` field, no truthy `message`, and no token in either
probed location), the OTP-request call yields success with the generic
message `Verification code sent`, while the OTP-verify call yields a
failure with message `Authentication failed: Unexpected response format`
and leaves the token registry unchanged. -/
theorem ambiguous_shape_split (ts : TokenState) (email otp userId : String)
    (r : UpResp)
    (h1 : r.status = none) (h2 : r.success = none) (h3 : r.code = none)
    (h4 : r.statusCode = none) (h5 : strTruthy r.message = false)
    (h6 : chainAccessToken (r.data.bind (fun d => d.tokens)) = none)
    (h7 : chainAccessToken r.tokens = none) :
    (requestEmailOtpNorm r).status = true ∧
    (requestEmailOtpNorm r).message = some "Verification code sent" ∧
    (authenticateWithOtp ts email otp userId (.ok r)).1 = ts ∧
    (authenticateWithOtp ts email otp userId (.ok r)).2.status = false ∧
    (authenticateWithOtp ts email otp userId (.ok r)).2.message =
      some "Authentication failed: Unexpected response format" := by
  have hreq :
      (requestEmailOtpNorm r).status = true ∧
      (requestEmailOtpNorm r).message = some "Verification code sent" := by
    simp [requestEmailOtpNorm, otpReqSuccessCheck, h1, h2, h3, h4, h5]
  have htail :
      authTail ts r =
        (ts,
          { status := false
            message := some "Authentication failed: Unexpected response format"
            data := none }) := by
    simp [authTail, h1]
  have hfb :
      authFallback ts email userId r =
        (ts,
          { status := false
            message := some "Authentication failed: Unexpected response format"
            data := none }) := by
    cases hrt : r.tokens with
    | none => simp [authFallback, hrt, htail]
    | some t =>
      cases ha : t.access with
      | none => simp [authFallback, hrt, ha, htail]
      | some a =>
        have hae : a.token = "" := by
          by_contra hne
          simp [chainAccessToken, hrt, ha, hne] at h7
        simp [authFallback, hrt, ha, hae, htail]
  have hauth :
      authenticateWithOtp ts email otp userId (.ok r) =
        (ts,
          { status := false
            message := some "Authentication failed: Unexpected response format"
            data := none }) := by
    unfold authenticateWithOtp
    simp only [h1, h2]
    simpa using hfb
  exact ⟨hreq.1, hreq.2, by rw [hauth], by rw [hauth], by rw [hauth]⟩

/-- Witness for amended C4 at the empty upstream body `{}`. -/
theorem ambiguous_shape_split_witness :
    (requestEmailOtpNorm {}).status = true ∧
    (requestEmailOtpNorm {}).message = some "Verification code sent" ∧
    (authenticateWithOtp emptyTokens "user@example.com" "1234" "7"
        (.ok {})).1 = emptyTokens ∧
    (authenticateWithOtp emptyTokens "user@example.com" "1234" "7"
        (.ok {})).2.status = false ∧
    (authenticateWithOtp emptyTokens "user@example.com" "1234" "7"
        (.ok {})).2.message =
      some "Authentication failed: Unexpected response format" :=
  ambiguous_shape_split emptyTokens "user@example.com" "1234" "7" {}
    rfl rfl rfl rfl rfl rfl rfl

/-- Counterexample to claim C1: an OTP-verify response with explicit
success status and nested access token `"abc"` whose user object carries an
empty organization id.  The handler completes its success path and the
Token Registry holds the token, but `isAuthenticated` is false — the claim
says it must be true. -/
theorem otp_success_empty_org_counterexample :
    (handleOtpInput awaitingOtpStore emptyTokens 1 "1" "123456"
        { auth := .ok emptyOrgAuthResp }).step = .loginSuccess ∧
    getTokenForUser (handleOtpInput awaitingOtpStore emptyTokens 1 "1"
        "123456" { auth := .ok emptyOrgAuthResp }).toks "1" = some "abc" ∧
    (isAuthenticated (handleOtpInput awaitingOtpStore emptyTokens 1 "1"
        "123456" { auth := .ok emptyOrgAuthResp }).sess 2 "1").1 = false :=
  ⟨rfl, rfl, rfl⟩

/-- Claim C1 as amended: for every OTP-verify call whose response is
recognized as successful with a nested access token, whose user object
carries a non-empty organization id, and whose awaited follow-up profile
and KYC fetches succeed, the handler ends with
`isAuthenticated(chatId) = true` and a non-null token in the Token
Registry. -/
theorem otp_verify_nested_token_authenticates (st : SessStore)
    (ts : TokenState) (now : Nat) (chatId text : String) (env : OtpEnv)
    (r : UpResp) (d : RespData) (t : TokensObj) (a : AccessTok) (u : UserObj)
    (org : String)
    (hchat : chatId ≠ "")
    (hemail : tempTruthy (getTempData st now chatId "email").1 = true)
    (hotp : isValidOtp (jsTrim text) = true)
    (hcall : env.auth = .ok r)
    (hflag : r.status = some true ∨ r.success = some true)
    (hd : r.data = some d) (ht : d.tokens = some t) (hacc : t.access = some a)
    (htok : a.token ≠ "")
    (hu : d.user = some u) (horg : u.organizationId = some org)
    (hne : org ≠ "")
    (hprof : env.profile.first = .ok)
    (hkyc : env.kyc.first = .ok) :
    (handleOtpInput st ts now chatId text env).step = .loginSuccess ∧
    (isAuthenticated (handleOtpInput st ts now chatId text env).sess now
        chatId).1 = true ∧
    getTokenForUser (handleOtpInput st ts now chatId text env).toks chatId =
      some a.token := by
  have hstore : ∀ ts0 : TokenState,
      (authStoreTokens ts0 chatId t a).userTokens chatId = some a.token := by
    intro ts0
    cases hr : t.refresh with
    | none =>
      cases he : a.expires <;>
        simp [authStoreTokens, hr, he, setTokenForUser, setTokenExpiryForUser]
    | some rt =>
      by_cases hrtt : rt.token = "" <;> cases he : a.expires <;>
        simp [authStoreTokens, hr, he, hrtt, setTokenForUser,
          setRefreshTokenForUser, setTokenExpiryForUser]
  have harFull : ∀ e o : String,
      authenticateWithOtp ts e o chatId env.auth =
        (authStoreTokens ts chatId t a,
          { status := true
            message := some (jsOr r.message "Authentication successful")
            data := r.data }) := by
    intro e o
    rcases hflag with hf | hf <;>
      simp [authenticateWithOtp, hcall, hf, hd, ht, hacc, htok]
  have hprofEq : ∀ ts0 : TokenState,
      getUserProfile ts0 chatId env.profile = (ts0, true) := by
    intro ts0
    simp [getUserProfile, runRequest, hprof]
  have hkycEq : ∀ ts0 : TokenState,
      getKycStatus ts0 chatId env.kyc = (ts0, true) := by
    intro ts0
    simp [getKycStatus, runRequest, hkyc]
  cases hge : (getTempData st now chatId "email").1 with
  | none => simp [tempTruthy, hge] at hemail
  | some ev =>
    have hev : ev.truthy = true := by simpa [tempTruthy, hge] using hemail
    refine ⟨?_, ?_, ?_⟩ <;>
      simp only [handleOtpInput, hge, hev, hotp, Bool.true_eq_false,
        if_false, harFull, hprofEq, hkycEq, hd, hu] <;>
      simp [isAuthenticated, getSession, setSession, applyPatch, storePut,
        strTruthy, horg, hne, getTokenForUser, hstore, hchat, htok]

/-- A response like `emptyOrgAuthResp` but with the non-empty organization
id `"org123"`. -/
def goodOrgAuthResp : UpResp :=
  { status := some true
    data := some
      { tokens := some { access := some { token := "abc" } }
        user := some
          { email := some "user@example.com",
            organizationId := some "org123" } } }

/-- Witness for amended C1 at a concrete login flow for chat `"1"`. -/
theorem otp_verify_nested_token_authenticates_witness :
    (handleOtpInput awaitingOtpStore emptyTokens 1 "1" "123456"
        { auth := .ok goodOrgAuthResp }).step = .loginSuccess ∧
    (isAuthenticated (handleOtpInput awaitingOtpStore emptyTokens 1 "1"
        "123456" { auth := .ok goodOrgAuthResp }).sess 1 "1").1 = true ∧
    getTokenForUser (handleOtpInput awaitingOtpStore emptyTokens 1 "1"
        "123456" { auth := .ok goodOrgAuthResp }).toks "1" = some "abc" :=
  otp_verify_nested_token_authenticates awaitingOtpStore emptyTokens 1 "1"
    "123456" { auth := .ok goodOrgAuthResp } goodOrgAuthResp _ _ _ _ "org123"
    (by decide) rfl rfl rfl (Or.inl rfl) rfl rfl rfl (by decide) rfl rfl
    (by decide) rfl rfl

/-- Counterexample to claim C8: the input `" 1234 "` is not a string of 4
to 8 ASCII digits, yet — because the handler trims it first — the
authenticate network call IS made in state AUTH_OTP. -/
theorem untrimmed_otp_counterexample :
    isValidOtp " 1234 " = false ∧
    (getState awaitingOtpStore 1 "1").1 = .auth_otp ∧
    (handleOtpInput awaitingOtpStore emptyTokens 1 "1" " 1234 "
        { auth := .ok {} }).authCalled = true :=
  ⟨rfl, rfl, rfl⟩

/-- Claim C8 as amended: for a chat in state AUTH_OTP, a text input whose
TRIMMED form is not a string of 4 to 8 ASCII digits leaves the session
store (state and scratch included) and the token registry unchanged and
makes no authenticate network call; the handler only replies with a prompt
(re-enter the code, or restart login when the scratch email is missing). -/
theorem invalid_otp_reprompts_no_call (st : SessStore) (ts : TokenState)
    (now : Nat) (chatId text : String) (env : OtpEnv)
    (s : UserSession TempVal) (hs : st chatId = some s)
    (hstate : s.currentState = some .auth_otp)
    (hotp : isValidOtp (jsTrim text) = false) :
    (handleOtpInput st ts now chatId text env).sess = st ∧
    (handleOtpInput st ts now chatId text env).toks = ts ∧
    (handleOtpInput st ts now chatId text env).authCalled = false ∧
    ((handleOtpInput st ts now chatId text env).step = .sessionExpired ∨
      (handleOtpInput st ts now chatId text env).step = .invalidFormat) := by
  have hge : (getTempData st now chatId "email").2 = st := by
    simp [getTempData, getSession, hs]
  cases hv : (getTempData st now chatId "email").1 with
  | none => simp [handleOtpInput, hv, hge]
  | some ev =>
    by_cases het : ev.truthy = false <;>
      simp [handleOtpInput, hv, hge, het, hotp]

/-- Witness for amended C8: the input `"12ab"` in state AUTH_OTP changes
nothing and calls nothing. -/
theorem invalid_otp_reprompts_no_call_witness :
    (awaitingOtpStore "1").isSome ∧
    isValidOtp (jsTrim "12ab") = false ∧
    ((handleOtpInput awaitingOtpStore emptyTokens 1 "1" "12ab"
        { auth := .ok {} }).sess = awaitingOtpStore ∧
      (handleOtpInput awaitingOtpStore emptyTokens 1 "1" "12ab"
        { auth := .ok {} }).toks = emptyTokens ∧
      (handleOtpInput awaitingOtpStore emptyTokens 1 "1" "12ab"
        { auth := .ok {} }).authCalled = false ∧
      ((handleOtpInput awaitingOtpStore emptyTokens 1 "1" "12ab"
          { auth := .ok {} }).step = .sessionExpired ∨
        (handleOtpInput awaitingOtpStore emptyTokens 1 "1" "12ab"
          { auth := .ok {} }).step = .invalidFormat)) :=
  ⟨rfl, rfl,
    invalid_otp_reprompts_no_call awaitingOtpStore emptyTokens 1 "1" "12ab"
      { auth := .ok {} } _ rfl rfl rfl⟩

/-- Claim C9: from any scratch state (in particular a partially completed
bank flow), the cancel action clears the entire scratch map — every
subsequent `getTempData` on any key returns nothing — sets the state to
MAIN_MENU, and issues no transfer network call. -/
theorem cancel_clears_scratch (st : SessStore) (now now2 : Nat)
    (c k : String) :
    (handleTransferConfirmation st now c "cancel_transfer").2 = [] ∧
    (getState (handleTransferConfirmation st now c "cancel_transfer").1 now2
      c).1 = .main_menu ∧
    (getTempData (handleTransferConfirmation st now c "cancel_transfer").1
      now2 c k).1 = none := by
  have h1 : handleTransferConfirmation st now c "cancel_transfer" =
      ((clearTempData (updateState st now c .main_menu).2 now c).2, []) := rfl
  cases hc : st c <;>
    simp [h1, clearTempData, updateState, setSession, applyPatch, getSession,
      storePut, getState, getTempData, defaultSession, hc]

end CopperxBot
